import Mathlib

/-!
A verification development for `patchwatcher/alarm.c`: a wrapper that runs a
single Wine conformance-test command under a wall-clock timeout, serializes
non-whitelisted tests with a lock file, captures and replays the child's
output when running under a parallel `make`, and checks that the test did not
change the X video mode.

The C code is shallowly embedded: each C function becomes a Lean function on
lists of strings / integers, and `main`'s behaviour after argument parsing
becomes a pure function `supervise` from an environment description and the
child's fate to an `Outcome` record of the observable effects.
-/

namespace Alarm

/-- `strstr(hay, needle) != NULL`, as a boolean: `needle` occurs as a
contiguous substring of `hay`. -/
def containsSub (needle hay : String) : Bool :=
  decide (needle.data <:+: hay.data)

/-- A command token contains the launcher marker: `strstr(argv[argi], "wine")`
(alarm.c line 82). -/
def hasMarker (s : String) : Bool := containsSub "wine" s

/-- `strrchr`-based truncation (alarm.c lines 89, 94, 97-101): the prefix of
the character list strictly before the LAST occurrence of `c`, or `none` when
`c` does not occur (`strrchr` returned `NULL`). -/
def takeBeforeLast (c : Char) : List Char → Option (List Char)
  | [] => none
  | x :: xs =>
    match takeBeforeLast c xs with
    | some p => some (x :: p)
    | none => if x = c then some [] else none

/-- The scan loop of `getTestID` (alarm.c lines 81-95) applied to the tokens
from index 1 onwards: find the first token containing the marker; it must be
followed by at least two tokens (`argi + 2 >= argc` fails otherwise), which
become the module token and the file token. -/
def scanTokens : List String → Option (String × String)
  | [] => none
  | t :: rest =>
    if hasMarker t then
      match rest with
      | m :: f :: _ => some (m, f)
      | _ => none
    else scanTokens rest

/-- `getTestID` (alarm.c lines 73-104). The scan starts at `argi = 1`, so the
first token of the command vector is never examined for the marker. On
success the result is the module token truncated at its last underscore, a
colon, and the file token truncated at its last dot. -/
def getTestID : List String → Option String
  | [] => none
  | _ :: rest =>
    match scanTokens rest with
    | none => none
    | some (m, f) =>
      match takeBeforeLast '_' m.data, takeBeforeLast '.' f.data with
      | some mp, some fp => some (String.mk (mp ++ ':' :: fp))
      | _, _ => none

/-- The static whitelist array (alarm.c lines 111-321), in source order. -/
def whitelist : List String := [
  "advapi32:cred",
  "advapi32:crypt",
  "advapi32:crypt_lmhash",
  "advapi32:crypt_md4",
  "advapi32:crypt_md5",
  "advapi32:crypt_sha",
  "advapi32:lsa",
  "advapi32:registry",
  "advapi32:security",
  "advapi32:service",
  "advpack:advpack",
  "advpack:files",
  "comctl32:misc",
  "comctl32:mru",
  "comdlg32:printdlg",
  "credui:credui",
  "crypt32:base64",
  "crypt32:cert",
  "crypt32:chain",
  "crypt32:crl",
  "crypt32:ctl",
  "crypt32:encode",
  "crypt32:main",
  "crypt32:message",
  "crypt32:oid",
  "crypt32:protectdata",
  "crypt32:sip",
  "crypt32:store",
  "crypt32:str",
  "cryptnet:cryptnet",
  "cryptui:cryptui",
  "d3drm:vector",
  "d3dx8:math",
  "d3dx9_36:math",
  "d3dxof:d3dxof",
  "dnsapi:name",
  "dnsapi:record",
  "dplayx:dplayx",
  "fusion:asmcache",
  "fusion:asmname",
  "fusion:fusion",
  "gdi32:bitmap",
  "gdi32:brush",
  "gdi32:gdiobj",
  "gdi32:generated",
  "gdi32:icm",
  "gdi32:mapping",
  "gdi32:palette",
  "gdi32:path",
  "gdi32:pen",
  "gdiplus:brush",
  "gdiplus:customlinecap",
  "gdiplus:graphics",
  "gdiplus:graphicspath",
  "gdiplus:matrix",
  "gdiplus:pathiterator",
  "gdiplus:pen",
  "gdiplus:region",
  "gdiplus:stringformat",
  "inetmib1:main",
  "iphlpapi:iphlpapi",
  "kernel32:actctx",
  "kernel32:alloc",
  "kernel32:atom",
  "kernel32:change",
  "kernel32:codepage",
  "kernel32:comm",
  "kernel32:debugger",
  "kernel32:directory",
  "kernel32:drive",
  "kernel32:environ",
  "kernel32:file",
  "kernel32:format_msg",
  "kernel32:generated",
  "kernel32:heap",
  "kernel32:loader",
  "kernel32:locale",
  "kernel32:mailslot",
  "kernel32:module",
  "kernel32:path",
  "kernel32:pipe",
  "kernel32:profile",
  "kernel32:resource",
  "kernel32:sync",
  "kernel32:time",
  "kernel32:timer",
  "kernel32:toolhelp",
  "kernel32:version",
  "kernel32:virtual",
  "kernel32:volume",
  "localspl:localmon",
  "localui:localui",
  "lz32:lzexpand_main",
  "mapi32:imalloc",
  "mapi32:prop",
  "mapi32:util",
  "msacm32:msacm",
  "mscms:profile",
  "msvcrt:cpp",
  "msvcrt:data",
  "msvcrtd:debug",
  "msvcrt:dir",
  "msvcrt:environ",
  "msvcrt:file",
  "msvcrt:headers",
  "msvcrt:heap",
  "msvcrt:printf",
  "msvcrt:scanf",
  "msvcrt:string",
  "msvcrt:time",
  "netapi32:access",
  "netapi32:apibuf",
  "netapi32:ds",
  "netapi32:wksta",
  "ntdll:atom",
  "ntdll:change",
  "ntdll:env",
  "ntdll:error",
  "ntdll:exception",
  "ntdll:file",
  "ntdll:generated",
  "ntdll:info",
  "ntdll:large_int",
  "ntdll:om",
  "ntdll:path",
  "ntdll:port",
  "ntdll:reg",
  "ntdll:rtl",
  "ntdll:rtlbitmap",
  "ntdll:rtlstr",
  "ntdll:string",
  "ntdll:time",
  "ntdsapi:ntdsapi",
  "ntprint:ntprint",
  "odbccp32:misc",
  "ole32:errorinfo",
  "ole32:hglobalstream",
  "ole32:propvariant",
  "ole32:stg_prop",
  "ole32:storage32",
  "oleacc:main",
  "oleaut32:olefont",
  "oleaut32:olepicture",
  "oleaut32:safearray",
  "oleaut32:typelib",
  "oleaut32:varformat",
  "oleaut32:vartest",
  "oleaut32:vartype",
  "pdh:pdh",
  "psapi:psapi_main",
  "rasapi32:rasapi",
  "rpcrt4:generated",
  "rpcrt4:ndr_marshall",
  "rpcrt4:rpc_async",
  "rpcrt4:server",
  "rsaenh:rsaenh",
  "schannel:main",
  "secur32:main",
  "secur32:ntlm",
  "secur32:schannel",
  "secur32:secur32",
  "serialui:confdlg",
  "setupapi:devinst",
  "setupapi:parser",
  "setupapi:query",
  "setupapi:stringtable",
  "shdocvw:shdocvw",
  "shell32:generated",
  "shell32:shfldr_special",
  "shell32:shlfileop",
  "shlwapi:assoc",
  "shlwapi:clist",
  "shlwapi:clsid",
  "shlwapi:generated",
  "shlwapi:istream",
  "shlwapi:ordinal",
  "shlwapi:path",
  "shlwapi:url",
  "snmpapi:util",
  "spoolss:spoolss",
  "urlmon:generated",
  "user32:generated",
  "user32:resource",
  "user32:wsprintf",
  "userenv:userenv",
  "version:info",
  "version:install",
  "winhttp:notification",
  "winhttp:url",
  "winhttp:winhttp",
  "wininet:generated",
  "wininet:http",
  "wininet:internet",
  "wininet:url",
  "wininet:urlcache",
  "winmm:capture",
  "winmm:mixer",
  "winmm:mmio",
  "winmm:timer",
  "winmm:wave",
  "winspool.drv:info",
  "wintrust:asn",
  "wintrust:crypt",
  "wintrust:register",
  "wintrust:softpub",
  "wldap32:parse",
  "ws2_32:protocol",
  "ws2_32:sock"
]

/-- C `strcmp` on character lists, as a signed integer: `0` when equal,
negative when the first differing character (or the terminating NUL of the
shorter string) makes the first argument smaller, positive otherwise. All
whitelist characters are ASCII, so comparing code points matches comparing
unsigned bytes. -/
def strcmp : List Char → List Char → Int
  | [], [] => 0
  | [], _ :: _ => -1
  | _ :: _, [] => 1
  | a :: as, b :: bs =>
    if a = b then strcmp as bs else (a.toNat : Int) - (b.toNat : Int)

/-- The glibc `bsearch` loop used by `inWhitelist` (alarm.c lines 331-337):
binary search over `whitelist[l..u)` comparing with `strcmp`. The loop is
written with explicit fuel (one unit per iteration); each iteration shrinks
`u - l`, so `whitelist.length` units can never run out. -/
def bsearchAux (key : String) : Nat → Nat → Nat → Option Nat
  | 0, _, _ => none
  | fuel + 1, l, u =>
    if l < u then
      let idx := (l + u) / 2
      let cmp := strcmp key.data (whitelist.getD idx "").data
      if cmp < 0 then bsearchAux key fuel l idx
      else if cmp > 0 then bsearchAux key fuel (idx + 1) u
      else some idx
    else none

/-- `inWhitelist` (alarm.c lines 331-337): `bsearch` over the whole array,
true iff the search returns a non-NULL hit. -/
def inWhitelist (testid : String) : Bool :=
  (bsearchAux testid whitelist.length 0 whitelist.length).isSome

/-- `isspace` for the characters C `atoi` skips. -/
def cIsSpace (c : Char) : Bool :=
  c = ' ' || c = '\t' || c = '\n' || c = '\x0b' || c = '\x0c' || c = '\r'

/-- Digit-accumulation loop of C `atoi`: consume leading decimal digits,
stop at the first non-digit. -/
def atoiDigits (acc : Int) : List Char → Int
  | [] => acc
  | c :: cs =>
    if c.isDigit then atoiDigits (acc * 10 + ((c.toNat - '0'.toNat : Nat) : Int)) cs
    else acc

/-- C `atoi`: skip whitespace, optional sign, then leading digits; yields `0`
when no digit follows. Overflow is out of scope (the inputs of interest are
small). -/
def atoi (s : String) : Int :=
  match s.data.dropWhile cIsSpace with
  | [] => 0
  | c :: cs =>
    if c = '-' then - atoiDigits 0 cs
    else if c = '+' then atoiDigits 0 cs
    else atoiDigits 0 (c :: cs)

/-- `getVideoMode` (alarm.c lines 345-361). `popenOk` models
`popen(...) != NULL`; `firstLine` models the result of `fgets` (`none` when
`fgets` returned `NULL`, i.e. the pipe produced no output). On a line, the
function returns `atoi(buf) - 2` to skip the two header lines counted by
`grep -n`. -/
def getVideoMode (popenOk : Bool) (firstLine : Option String) : Int :=
  if !popenOk then 0
  else
    match firstLine with
    | none => 0
    | some l => atoi l - 2

/-- `isParallelRun` (alarm.c lines 339-343): `MAKEFLAGS` is set and contains
the substring `"jobserver"`. -/
def isParallelRun (makeflags : Option String) : Bool :=
  match makeflags with
  | none => false
  | some s => containsSub "jobserver" s

/-- The parts of the outside world `main` consults, fixed for one run.
`prePopenOk`/`preLine` feed the pre-run `getVideoMode` call and
`postPopenOk`/`postLine` the post-run one. `initTestid` is the content the
uninitialised `char testid[64]` buffer happens to hold when `getTestID`
fails and never writes it. `lockOpenOk` / `logOpenOk` model the two `open`
calls succeeding, and `logNonempty` models
`lseek(logfd, 0, SEEK_CUR) != 0` after the child ran. -/
structure Env where
  makeflags : Option String
  prePopenOk : Bool
  preLine : Option String
  postPopenOk : Bool
  postLine : Option String
  initTestid : String
  lockOpenOk : Bool
  logOpenOk : Bool
  logNonempty : Bool
  deriving Repr, DecidableEq

/-- Termination status delivered by `wait`: `WIFEXITED` holds exactly for
`exited`, and `WEXITSTATUS` is the stored (8-bit) exit code. -/
inductive WaitStatus where
  | exited (code : Nat)
  | signaled (sig : Nat)
  deriving Repr, DecidableEq

/-- How the supervised child run ends: either the `SIGALRM` deadline fires
while the parent is blocked in `wait` (alarm.c lines 61-67), or `wait`
returns a termination status first. -/
inductive ChildRun where
  | timedOut
  | completed (w : WaitStatus)
  deriving Repr, DecidableEq

/-- Observable effects of one supervisor run (diagnostic strings are modelled
without their trailing newline). `killedWith` is the signal number sent to
the child by the supervisor itself, `probedPre`/`probedPost` record whether
`getVideoMode` was invoked before/after the run, `resetAttempted` records the
`system("xrandr -s 0")` call, and `framingLine` the `alarm: runtest %s log:`
header of the replayed block. -/
structure Outcome where
  exitCode : Nat
  timeoutMsg : Option String
  killedWith : Option Nat
  lockTaken : Bool
  lockReleased : Bool
  logOpened : Bool
  logFilename : Option String
  replayed : Bool
  framingLine : Option String
  abnormalMsg : Option String
  probedPre : Bool
  probedPost : Bool
  mismatchMsg : Option String
  resetAttempted : Bool
  deriving Repr, DecidableEq

/-- `main` after argument parsing (alarm.c lines 389-494), as a pure function
of the environment, the command vector with the timeout removed (`newargv`),
and the child's fate.

Mirrors the source step by step: `notWhitelisted = getTestID(...) &&
!inWhitelist(testid)` (line 393, short-circuit: on extraction failure the
flag is false and `inWhitelist` is never called); the pre-run probe runs only
when the flag is set (lines 395-397); in parallel mode the execution lock is
taken only when the flag is set and the log file named `"<testid>.tmplog"`
is opened (lines 401-412) — on extraction failure `testid` is whatever the
uninitialised buffer held; after `wait`, a non-empty log file is replayed
under the log lock (lines 437-469), the execution lock is released (lines
471-473), a non-`WIFEXITED` status reports `alarm: Terminated abnormally`
and exits 99 (lines 475-479), a changed video mode for a non-whitelisted
test reports, resets best-effort and exits 1 (lines 481-491), and otherwise
the child's `WEXITSTATUS` is returned (line 494). The `SIGALRM` handler
(lines 61-67) kills the child with `SIGKILL` (signal 9), prints the timeout
diagnostic to stderr and exits 1 at once. -/
def supervise (env : Env) (newargv : List String) (run : ChildRun) : Outcome :=
  let tid? := getTestID newargv
  let testid := match tid? with | some s => s | none => env.initTestid
  let notWhitelisted := match tid? with | none => false | some s => !(inWhitelist s)
  let origVideoMode : Int :=
    if notWhitelisted then getVideoMode env.prePopenOk env.preLine else 0
  let parallel := isParallelRun env.makeflags
  let lockTaken := parallel && (notWhitelisted && env.lockOpenOk)
  let logFilename? := if parallel then some (testid ++ ".tmplog") else none
  let logOpened := parallel && env.logOpenOk
  match run with
  | .timedOut =>
    { exitCode := 1
      timeoutMsg := some "alarm: Timeout!  Killing child."
      killedWith := some 9
      lockTaken := lockTaken, lockReleased := false
      logOpened := logOpened, logFilename := logFilename?
      replayed := false, framingLine := none
      abnormalMsg := none
      probedPre := notWhitelisted, probedPost := false
      mismatchMsg := none, resetAttempted := false }
  | .completed w =>
    let replayed := logOpened && env.logNonempty
    let framing :=
      if replayed then some ("alarm: runtest " ++ testid ++ " log:") else none
    match w with
    | .signaled _ =>
      { exitCode := 99
        timeoutMsg := none, killedWith := none
        lockTaken := lockTaken, lockReleased := lockTaken
        logOpened := logOpened, logFilename := logFilename?
        replayed := replayed, framingLine := framing
        abnormalMsg := some "alarm: Terminated abnormally"
        probedPre := notWhitelisted, probedPost := false
        mismatchMsg := none, resetAttempted := false }
    | .exited code =>
      if notWhitelisted then
        let videoMode := getVideoMode env.postPopenOk env.postLine
        if videoMode ≠ origVideoMode then
          { exitCode := 1
            timeoutMsg := none, killedWith := none
            lockTaken := lockTaken, lockReleased := lockTaken
            logOpened := logOpened, logFilename := logFilename?
            replayed := replayed, framingLine := framing
            abnormalMsg := none
            probedPre := notWhitelisted, probedPost := true
            mismatchMsg := some ("alarm: video mode changed! was " ++
              toString origVideoMode ++ ", now " ++ toString videoMode)
            resetAttempted := true }
        else
          { exitCode := code
            timeoutMsg := none, killedWith := none
            lockTaken := lockTaken, lockReleased := lockTaken
            logOpened := logOpened, logFilename := logFilename?
            replayed := replayed, framingLine := framing
            abnormalMsg := none
            probedPre := notWhitelisted, probedPost := true
            mismatchMsg := none, resetAttempted := false }
      else
        { exitCode := code
          timeoutMsg := none, killedWith := none
          lockTaken := lockTaken, lockReleased := lockTaken
          logOpened := logOpened, logFilename := logFilename?
          replayed := replayed, framingLine := framing
          abnormalMsg := none
          probedPre := notWhitelisted, probedPost := false
          mismatchMsg := none, resetAttempted := false }

/-- If `c` does not occur in `l`, `strrchr` truncation fails. -/
theorem takeBeforeLast_of_not_mem {c : Char} {l : List Char} (h : c ∉ l) :
    takeBeforeLast c l = none := by
  induction l with
  | nil => rfl
  | cons x xs ih =>
    have hx : ¬(x = c) := fun hxc => h (hxc ▸ List.mem_cons_self x xs)
    have hxs : c ∉ xs := fun hm => h (List.mem_cons_of_mem _ hm)
    simp [takeBeforeLast, ih hxs, hx]

/-- `strrchr` truncation keeps exactly the part before the last occurrence:
when `c` does not occur in `suf`, the last occurrence of `c` in
`name ++ c :: suf` is the displayed one. -/
theorem takeBeforeLast_append (name : List Char) {c : Char} {suf : List Char}
    (h : c ∉ suf) : takeBeforeLast c (name ++ c :: suf) = some name := by
  induction name with
  | nil => simp [takeBeforeLast, takeBeforeLast_of_not_mem h]
  | cons x xs ih => simp [takeBeforeLast, ih]

/-- The scan loop finds the marker token after skipping any run of tokens
without the marker, and returns the following two tokens. -/
theorem scanTokens_append {pre : List String} {t : String} (m f : String)
    (rest : List String) (hpre : ∀ x ∈ pre, hasMarker x = false)
    (ht : hasMarker t = true) :
    scanTokens (pre ++ t :: m :: f :: rest) = some (m, f) := by
  induction pre with
  | nil => simp [scanTokens, ht]
  | cons x xs ih =>
    have hx := hpre x (List.mem_cons_self x xs)
    simp only [List.cons_append, scanTokens, hx, Bool.false_eq_true, if_false]
    exact ih fun y hy => hpre y (List.mem_cons_of_mem _ hy)

/-- The log file is opened exactly in parallel mode (when `open` succeeds),
on every path, whatever the whitelist decision. -/
theorem supervise_logOpened (env : Env) (argv : List String) (run : ChildRun) :
    (supervise env argv run).logOpened =
      (isParallelRun env.makeflags && env.logOpenOk) := by
  cases run with
  | timedOut => rfl
  | completed w =>
    cases w with
    | signaled sig => rfl
    | exited code =>
      unfold supervise
      dsimp only
      split
      · split <;> rfl
      · rfl

/-- The name handed to `open` for the capture file: in parallel mode it is
always `"<testid>.tmplog"`, where `testid` is the extracted identity when
extraction succeeded and the prior (uninitialised) buffer content otherwise. -/
theorem supervise_logFilename (env : Env) (argv : List String) (run : ChildRun) :
    (supervise env argv run).logFilename =
      (if isParallelRun env.makeflags then
        some ((match getTestID argv with
               | some s => s
               | none => env.initTestid) ++ ".tmplog")
       else none) := by
  cases run with
  | timedOut => rfl
  | completed w =>
    cases w with
    | signaled sig => rfl
    | exited code =>
      unfold supervise
      dsimp only
      split
      · split <;> rfl
      · rfl

/-- After `wait` returns a status, the replay happens exactly when the log
file was opened and is non-empty, whatever the status and the whitelist
decision. -/
theorem supervise_completed_replayed (env : Env) (argv : List String)
    (w : WaitStatus) :
    (supervise env argv (.completed w)).replayed =
      (isParallelRun env.makeflags && env.logOpenOk && env.logNonempty) := by
  cases w with
  | signaled sig => rfl
  | exited code =>
    unfold supervise
    dsimp only
    split
    · split <;> rfl
    · rfl

/-- The framing line written when the replay happens, on every completed
path: it names `testid`, extracted or left over in the buffer. -/
theorem supervise_completed_framingLine (env : Env) (argv : List String)
    (w : WaitStatus) :
    (supervise env argv (.completed w)).framingLine =
      (if isParallelRun env.makeflags && env.logOpenOk && env.logNonempty then
        some ("alarm: runtest " ++
          (match getTestID argv with
           | some s => s
           | none => env.initTestid) ++ " log:")
       else none) := by
  cases w with
  | signaled sig => rfl
  | exited code =>
    unfold supervise
    dsimp only
    split
    · split <;> rfl
    · rfl

/-- C1, counterexample: an invocation with no launcher-marker token, run in
parallel mode with the lock file openable. Identity extraction fails, yet
the supervisor neither performs the pre-run environment probe nor takes the
execution lock — `notWhitelisted = getTestID(...) && !inWhitelist(...)` is
false, so extraction failure is treated as whitelisted, not conservatively. -/
theorem extraction_failure_conservative_counterexample :
    getTestID ["ls", "foo"] = none ∧
    isParallelRun (some "-j --jobserver-fds=3,4") = true ∧
    (supervise ⟨some "-j --jobserver-fds=3,4", true, some "3:a", true,
        some "3:a", "", true, true, false⟩ ["ls", "foo"]
        (.completed (.exited 0))).probedPre = false ∧
    (supervise ⟨some "-j --jobserver-fds=3,4", true, some "3:a", true,
        some "3:a", "", true, true, false⟩ ["ls", "foo"]
        (.completed (.exited 0))).lockTaken = false := by
  decide

/-- C1, amended: when identity extraction fails, the supervisor treats the
test as WHITELISTED — the `notWhitelisted` flag stays false, so the
environment probe is skipped and the execution lock is never acquired, on
every run path. -/
theorem extraction_failure_skips_probe_and_lock (env : Env)
    (argv : List String) (run : ChildRun) (h : getTestID argv = none) :
    (supervise env argv run).probedPre = false ∧
    (supervise env argv run).lockTaken = false := by
  cases run with
  | timedOut => simp [supervise, h]
  | completed w =>
    cases w with
    | signaled sig => simp [supervise, h]
    | exited code => simp [supervise, h]

/-- Witness for the amended C1 at a concrete parallel-mode invocation. -/
theorem extraction_failure_skips_probe_and_lock_witness :
    (supervise ⟨some "-j --jobserver-fds=3,4", true, some "3:a", true,
        some "3:a", "x", true, true, false⟩ ["true"]
        (.completed (.exited 0))).probedPre = false ∧
    (supervise ⟨some "-j --jobserver-fds=3,4", true, some "3:a", true,
        some "3:a", "x", true, true, false⟩ ["true"]
        (.completed (.exited 0))).lockTaken = false :=
  extraction_failure_skips_probe_and_lock _ _ _ (by decide)

/-- C2, counterexample: the spec's own scenario command vector
`wine ntdll_test.exe generated.c`. The marker token is the FIRST token, but
`getTestID` starts its scan at index 1, so it never sees it and extraction
fails instead of yielding `"ntdll:generated"`. -/
theorem getTestID_marker_first_token_fails :
    getTestID ["wine", "ntdll_test.exe", "generated.c"] = none := by
  decide

/-- C2, amended: the marker scan skips the first token of the Invocation.
Whenever the first token at index ≥ 1 containing the marker is followed by a
token of the form `moduleName_suffix` (last underscore the displayed one) and
a token of the form `fileName.ext` (last dot the displayed one), extraction
succeeds and yields exactly `"moduleName:fileName"`. -/
theorem getTestID_marker_after_head (a0 t : String) (pre rest : List String)
    (moduleName suffix fileName ext : String)
    (hpre : ∀ x ∈ pre, hasMarker x = false)
    (ht : hasMarker t = true)
    (hsuf : '_' ∉ suffix.data)
    (hext : '.' ∉ ext.data) :
    getTestID (a0 :: pre ++ t ::
        String.mk (moduleName.data ++ '_' :: suffix.data) ::
        String.mk (fileName.data ++ '.' :: ext.data) :: rest)
      = some (String.mk (moduleName.data ++ ':' :: fileName.data)) := by
  simp [getTestID, scanTokens_append _ _ _ hpre ht,
    takeBeforeLast_append _ hsuf, takeBeforeLast_append _ hext]

/-- Witness for the amended C2: with the launcher in second position the
spec's example identity is produced. -/
theorem getTestID_marker_after_head_witness :
    getTestID ["runtest", "wine", "ntdll_test.exe", "generated.c"]
      = some "ntdll:generated" :=
  getTestID_marker_after_head "runtest" "wine" [] [] "ntdll" "test.exe"
    "generated" "c" (fun x hx => absurd hx (List.not_mem_nil x))
    (by decide) (by decide) (by decide)

set_option maxRecDepth 20000 in
/-- C3: the whitelist array is NOT lexicographically sorted under byte-wise
comparison — the adjacent entries at indices 100 and 101 are out of order
(the array was sorted under a locale collation, not `strcmp` order),
violating the precondition of the `bsearch` in `inWhitelist`. -/
theorem whitelist_not_strcmp_sorted :
    whitelist.getD 100 "" = "msvcrtd:debug" ∧
    whitelist.getD 101 "" = "msvcrt:dir" ∧
    0 < strcmp "msvcrtd:debug".data "msvcrt:dir".data ∧
    ¬ List.Chain' (fun a b => strcmp a.data b.data < 0) whitelist := by
  refine ⟨by decide, by decide, by decide, fun hchain => ?_⟩
  have h := List.chain'_iff_get.mp hchain 100 (by decide)
  revert h
  decide

set_option maxRecDepth 20000 in
/-- C4: `inWhitelist` is not a membership test for the array —
`"msvcrtd:debug"` is an entry of the whitelist, yet the binary search misses
it because the array is not sorted for `strcmp` around it. -/
theorem inWhitelist_misses_member :
    "msvcrtd:debug" ∈ whitelist ∧ inWhitelist "msvcrtd:debug" = false := by
  decide

/-- C5: when the deadline fires first, the `SIGALRM` handler prints the
timeout diagnostic to stderr, kills the child with `SIGKILL` and the process
exits 1 immediately: no replay, no explicit lock release, no exit-status
classification, no post-run probe, no mismatch report. -/
theorem timeout_path (env : Env) (argv : List String) :
    (supervise env argv .timedOut).exitCode = 1 ∧
    (supervise env argv .timedOut).timeoutMsg =
      some "alarm: Timeout!  Killing child." ∧
    (supervise env argv .timedOut).killedWith = some 9 ∧
    (supervise env argv .timedOut).replayed = false ∧
    (supervise env argv .timedOut).lockReleased = false ∧
    (supervise env argv .timedOut).abnormalMsg = none ∧
    (supervise env argv .timedOut).probedPost = false ∧
    (supervise env argv .timedOut).mismatchMsg = none ∧
    (supervise env argv .timedOut).resetAttempted = false :=
  ⟨rfl, rfl, rfl, rfl, rfl, rfl, rfl, rfl, rfl⟩

/-- C6: when the child exits normally before the deadline and either the
extracted identity is whitelisted or the pre- and post-run probe values are
equal, the supervisor's exit status is the child's exit code unchanged. -/
theorem normal_exit_propagates_exit_code (env : Env) (argv : List String)
    (code : Nat)
    (h : (∃ id, getTestID argv = some id ∧ inWhitelist id = true) ∨
      getVideoMode env.prePopenOk env.preLine =
        getVideoMode env.postPopenOk env.postLine) :
    (supervise env argv (.completed (.exited code))).exitCode = code := by
  rcases h with ⟨id, htid, hwl⟩ | heq
  · simp [supervise, htid, hwl]
  · cases htid : getTestID argv with
    | none => simp [supervise, htid]
    | some id =>
      cases hwl : inWhitelist id with
      | true => simp [supervise, htid, hwl]
      | false => simp [supervise, htid, hwl, heq]

set_option maxRecDepth 40000 in
/-- Witness for C6: the identity `"ntdll:generated"` is whitelisted, so even
with differing probe readings the child's exit code 7 is propagated. -/
theorem normal_exit_propagates_exit_code_witness :
    (supervise ⟨some "-j --jobserver-fds=3,4", true, some "3:a", true,
        some "9:b", "", true, true, true⟩
      ["runtest", "wine", "ntdll_test.exe", "generated.c"]
      (.completed (.exited 7))).exitCode = 7 :=
  normal_exit_propagates_exit_code
    ⟨some "-j --jobserver-fds=3,4", true, some "3:a", true,
      some "9:b", "", true, true, true⟩
    ["runtest", "wine", "ntdll_test.exe", "generated.c"] 7
    (Or.inl ⟨"ntdll:generated", by decide, by decide⟩)

/-- C7: a child that does not exit normally (killed or crashed) makes the
supervisor print the abnormal-termination diagnostic and exit 99, without
invoking the post-run probe, reporting a mismatch or attempting a reset —
whatever the whitelist status. -/
theorem abnormal_termination_path (env : Env) (argv : List String)
    (sig : Nat) :
    (supervise env argv (.completed (.signaled sig))).exitCode = 99 ∧
    (supervise env argv (.completed (.signaled sig))).abnormalMsg =
      some "alarm: Terminated abnormally" ∧
    (supervise env argv (.completed (.signaled sig))).probedPost = false ∧
    (supervise env argv (.completed (.signaled sig))).mismatchMsg = none ∧
    (supervise env argv (.completed (.signaled sig))).resetAttempted = false :=
  ⟨rfl, rfl, rfl, rfl, rfl⟩

/-- C8: for a non-whitelisted test (identity extracted, not in the list)
whose child exits normally, differing probe readings produce the mismatch
diagnostic with the literal before/after values, a best-effort reset, and
exit status 1; equal readings produce no mismatch diagnostic. -/
theorem video_mode_mismatch_reporting (env : Env) (argv : List String)
    (id : String) (code : Nat)
    (htid : getTestID argv = some id) (hwl : inWhitelist id = false) :
    (getVideoMode env.postPopenOk env.postLine ≠
        getVideoMode env.prePopenOk env.preLine →
      (supervise env argv (.completed (.exited code))).mismatchMsg =
        some ("alarm: video mode changed! was " ++
          toString (getVideoMode env.prePopenOk env.preLine) ++ ", now " ++
          toString (getVideoMode env.postPopenOk env.postLine)) ∧
      (supervise env argv (.completed (.exited code))).resetAttempted = true ∧
      (supervise env argv (.completed (.exited code))).exitCode = 1) ∧
    (getVideoMode env.postPopenOk env.postLine =
        getVideoMode env.prePopenOk env.preLine →
      (supervise env argv (.completed (.exited code))).mismatchMsg = none) := by
  constructor
  · intro hne
    refine ⟨?_, ?_, ?_⟩ <;> simp [supervise, htid, hwl, hne]
  · intro heq
    simp [supervise, htid, hwl, heq]

set_option maxRecDepth 40000 in
/-- Witness for C8 at probe readings 3 (before) and 5 (after) for the
non-whitelisted identity `"foo:bar"`. -/
theorem video_mode_mismatch_reporting_witness :
    (getVideoMode true (some "7:y") ≠ getVideoMode true (some "5:x") →
      (supervise ⟨some "-j --jobserver-fds=3,4", true, some "5:x", true,
          some "7:y", "", true, true, false⟩
        ["runtest", "wine", "foo_test.exe", "bar.c"]
        (.completed (.exited 0))).mismatchMsg =
        some ("alarm: video mode changed! was " ++
          toString (getVideoMode true (some "5:x")) ++ ", now " ++
          toString (getVideoMode true (some "7:y"))) ∧
      (supervise ⟨some "-j --jobserver-fds=3,4", true, some "5:x", true,
          some "7:y", "", true, true, false⟩
        ["runtest", "wine", "foo_test.exe", "bar.c"]
        (.completed (.exited 0))).resetAttempted = true ∧
      (supervise ⟨some "-j --jobserver-fds=3,4", true, some "5:x", true,
          some "7:y", "", true, true, false⟩
        ["runtest", "wine", "foo_test.exe", "bar.c"]
        (.completed (.exited 0))).exitCode = 1) ∧
    (getVideoMode true (some "7:y") = getVideoMode true (some "5:x") →
      (supervise ⟨some "-j --jobserver-fds=3,4", true, some "5:x", true,
          some "7:y", "", true, true, false⟩
        ["runtest", "wine", "foo_test.exe", "bar.c"]
        (.completed (.exited 0))).mismatchMsg = none) :=
  video_mode_mismatch_reporting
    ⟨some "-j --jobserver-fds=3,4", true, some "5:x", true,
      some "7:y", "", true, true, false⟩
    ["runtest", "wine", "foo_test.exe", "bar.c"] "foo:bar" 0
    (by decide) (by decide)

/-- C9, counterexample: a first output line holding no integer. The probe
does not return the sentinel 0: `atoi` yields 0 and the probe returns
`0 - 2 = -2`. -/
theorem probe_unparseable_line_not_sentinel :
    getVideoMode true (some "xyz") ≠ 0 := by
  decide

/-- C9, amended: when the external query cannot be invoked (`popen` fails)
or produces no first line (`fgets` fails), the probe returns the sentinel 0;
when a first line is read but no integer parses from it, `atoi` yields 0 and
the probe returns -2. -/
theorem probe_failure_sentinels (line : Option String) (popenOk : Bool)
    (s : String) (hs : atoi s = 0) :
    getVideoMode false line = 0 ∧
    getVideoMode popenOk none = 0 ∧
    getVideoMode true (some s) = -2 := by
  refine ⟨rfl, ?_, ?_⟩
  · cases popenOk <;> rfl
  · simp [getVideoMode, hs]

/-- Witness for the amended C9 at the unparseable line `"abc"`. -/
theorem probe_failure_sentinels_witness :
    getVideoMode false none = 0 ∧
    getVideoMode true none = 0 ∧
    getVideoMode true (some "abc") = -2 :=
  probe_failure_sentinels none true "abc" (by decide)

/-- C10: in parallel mode (log file openable, non-empty after the child) the
supervisor opens the capture file and performs the framed replay whatever
the child's status and whatever the whitelist decision or extraction result
for the command vector; and when identity extraction failed, the capture
file name and the identity in the framing line are built from whatever the
never-written `testid` buffer happened to contain (`env.initTestid`), not
from any extracted identity. -/
theorem parallel_replay_and_capture_name (env : Env) (argv : List String)
    (w : WaitStatus)
    (hpar : isParallelRun env.makeflags = true)
    (hopen : env.logOpenOk = true)
    (hne : env.logNonempty = true) :
    (supervise env argv (.completed w)).logOpened = true ∧
    (supervise env argv (.completed w)).replayed = true ∧
    (getTestID argv = none →
      (supervise env argv (.completed w)).logFilename =
        some (env.initTestid ++ ".tmplog") ∧
      (supervise env argv (.completed w)).framingLine =
        some ("alarm: runtest " ++ env.initTestid ++ " log:")) := by
  refine ⟨?_, ?_, fun hnone => ⟨?_, ?_⟩⟩
  · rw [supervise_logOpened, hpar, hopen]
    rfl
  · rw [supervise_completed_replayed, hpar, hopen, hne]
    rfl
  · rw [supervise_logFilename, hpar, hnone]
    rfl
  · rw [supervise_completed_framingLine, hpar, hopen, hne, hnone]
    rfl

set_option maxRecDepth 40000 in
/-- Witness for C10: parallel environment, non-empty capture, an invocation
without a marker token, and the buffer holding the leftover text `"JUNK"`. -/
theorem parallel_replay_and_capture_name_witness :
    (supervise ⟨some "-j --jobserver-fds=3,4", true, some "3:a", true,
        some "3:a", "JUNK", true, true, true⟩ ["sh", "conftest.sh"]
        (.completed (.exited 0))).logOpened = true ∧
    (supervise ⟨some "-j --jobserver-fds=3,4", true, some "3:a", true,
        some "3:a", "JUNK", true, true, true⟩ ["sh", "conftest.sh"]
        (.completed (.exited 0))).replayed = true ∧
    (getTestID ["sh", "conftest.sh"] = none →
      (supervise ⟨some "-j --jobserver-fds=3,4", true, some "3:a", true,
          some "3:a", "JUNK", true, true, true⟩ ["sh", "conftest.sh"]
          (.completed (.exited 0))).logFilename = some ("JUNK" ++ ".tmplog") ∧
      (supervise ⟨some "-j --jobserver-fds=3,4", true, some "3:a", true,
          some "3:a", "JUNK", true, true, true⟩ ["sh", "conftest.sh"]
          (.completed (.exited 0))).framingLine =
        some ("alarm: runtest " ++ "JUNK" ++ " log:")) :=
  parallel_replay_and_capture_name
    ⟨some "-j --jobserver-fds=3,4", true, some "3:a", true,
      some "3:a", "JUNK", true, true, true⟩
    ["sh", "conftest.sh"] (.exited 0) (by decide) (by decide) (by decide)

end Alarm
